import Mathlib

/-!
# Verification of the keyword-research panel against its specification

Shallow embedding of `src/components/KeywordResearchPanel.tsx`: the
response normalizer, the label formatters, the search orchestration
(`searchKeywords` / `handleSearch` / the auto-search effect), the
debounce effect, and the bookmark toggle.  JavaScript `undefined` is
modelled by `Option`, JavaScript `||` truthiness by explicit helpers
(`0` and `""` are falsy), and the asynchronous `handleSearch` is split
at its single suspension point into `startSearch` / `completeSearch`
so that interleavings of overlapping requests can be analysed.
-/

namespace KeywordPanel

/-- JS truthiness of an optional number: `undefined` and `0` are falsy. -/
def truthyNum : Option Int → Bool
  | none => false
  | some n => n != 0

/-- JS `a || b` over optional numbers (`keyword.searchVolume || ...`). -/
def jsOrNum (a b : Option Int) : Option Int :=
  if truthyNum a then a else b

/-- JS `a || b` where `a` is an optional string and `b` a string default:
`undefined` and the empty string are falsy. -/
def jsOrStr (a : Option String) (b : String) : String :=
  match a with
  | none => b
  | some s => if s = "" then b else s

/-- A raw result item as delivered by the provider.  Fields the provider
may omit are `Option`s (`none` models JS `undefined`). -/
structure RawItem where
  keyword : Option String
  searchVolume : Option Int
  volume : Option Int
  monthly_searches : Option Int
  volumeLabel : Option String
  difficultyLabel : Option String
deriving DecidableEq

/-- The `volume` field of a normalized keyword: an exact number or a
label string (the TS code stores either in the same field). -/
inductive VolumeVal where
  | num (n : Int)
  | str (s : String)
deriving DecidableEq

/-- A normalized keyword (`Keyword` type in the TS source; `term` is an
`Option` because a raw item may lack its `keyword` field at runtime). -/
structure Keyword where
  term : Option String
  volume : VolumeVal
  difficulty : String
deriving DecidableEq

/-- JS `String.prototype.trim()`: drop whitespace from both ends
(structural model, so that concrete instances reduce in the kernel). -/
def jsTrim (s : String) : String :=
  String.mk (((s.data.dropWhile Char.isWhitespace).reverse.dropWhile Char.isWhitespace).reverse)

/-- The per-item transform inside `searchKeywords` (lines 88-97):
`exactVolume = keyword.searchVolume || keyword.volume || keyword.monthly_searches`,
then `typeof exactVolume === 'number' ? exactVolume : (keyword.volumeLabel || 'Unknown')`,
and `difficulty = keyword.difficultyLabel || 'Unknown'`. -/
def normalizeItem (k : RawItem) : Keyword :=
  let exactVolume := jsOrNum k.searchVolume (jsOrNum k.volume k.monthly_searches)
  { term := k.keyword
    volume :=
      match exactVolume with
      | some n => VolumeVal.num n
      | none => VolumeVal.str (jsOrStr k.volumeLabel "Unknown")
    difficulty := jsOrStr k.difficultyLabel "Unknown" }

/-- One of the two suggestion collections of a payload (`allIdeas` or
`questionIdeas`); its `results` array may be missing. -/
structure IdeaCollection where
  results : Option (List RawItem)
deriving DecidableEq

/-- The `data` object of a successful payload. -/
structure PayloadData where
  allIdeas : Option IdeaCollection
  questionIdeas : Option IdeaCollection
deriving DecidableEq

/-- A successful provider payload; the outer `data` object may be missing. -/
structure Payload where
  data : Option PayloadData
deriving DecidableEq

/-- `c?.results || []`: a missing collection or missing array yields `[]`. -/
def collResults : Option IdeaCollection → List RawItem
  | none => []
  | some c => c.results.getD []

/-- `data.data?.allIdeas?.results || []` (line 84). -/
def allIdeasResults (p : Payload) : List RawItem :=
  match p.data with
  | none => []
  | some d => collResults d.allIdeas

/-- `data.data?.questionIdeas?.results || []` (line 85). -/
def questionIdeasResults (p : Payload) : List RawItem :=
  match p.data with
  | none => []
  | some d => collResults d.questionIdeas

/-- The success path of `searchKeywords` (lines 84-97): concatenate the
two result arrays, general suggestions first, and map the transform. -/
def normalizePayload (p : Payload) : List Keyword :=
  (allIdeasResults p ++ questionIdeasResults p).map normalizeItem

/-- The five-entry lookup table inside `formatVolumeLabel` (lines 17-23). -/
def volumeMap : String → Option String
  | "MoreThanHundredThousand" => some "100,000+"
  | "MoreThanTenThousand" => some "10,000+"
  | "MoreThanOneThousand" => some "1,000+"
  | "MoreThanOneHundred" => some "100+"
  | "LessThanOneHundred" => some "<100"
  | _ => none

/-- `formatVolumeLabel` (lines 15-25): empty or `"Unknown"` labels yield
`"Unknown"`; otherwise `map[label] || label`. -/
def formatVolumeLabel (label : String) : String :=
  if label = "" ∨ label = "Unknown" then "Unknown"
  else
    match volumeMap label with
    | some v => v
    | none => label

/-- `label.charAt(0).toUpperCase() + label.slice(1).toLowerCase()`. -/
def titleCaseJS (l : String) : String :=
  match l.data with
  | [] => ""
  | c :: cs => String.mk (c.toUpper :: cs.map Char.toLower)

/-- `formatDifficultyLabel` (lines 28-31): empty or `"Unknown"` labels
yield `"Unknown"`; otherwise the title-cased label. -/
def formatDifficultyLabel (label : String) : String :=
  if label = "" ∨ label = "Unknown" then "Unknown"
  else titleCaseJS label

/-- The failure message thrown when `RAPIDAPI_KEY` is falsy (line 62). -/
def configErrorMessage : String :=
  "RapidAPI key not configured. Please add VITE_RAPIDAPI_KEY to your environment variables."

/-- `errorData.message || 'API request failed with status ' + status` (line 78). -/
def providerErrorMessage (message : Option String) (status : Nat) : String :=
  jsOrStr message ("API request failed with status " ++ toString status)

/-- The provider's answer to one request, as `searchKeywords` observes it:
`ok`/`status` from the transport, `message` the optional `message` field
of the parsed non-success body (`none` when the body is unparseable or
has no such field), `payload` the parsed success body. -/
structure FetchResponse where
  ok : Bool
  status : Nat
  message : Option String
  payload : Payload
deriving DecidableEq

/-- JS truthiness of the optional credential string (`!RAPIDAPI_KEY`):
`undefined` and the empty string are falsy. -/
def truthyKey : Option String → Bool
  | none => false
  | some s => s != ""

/-- `searchKeywords` (lines 60-103) run against one provider response:
returns the thrown-or-returned outcome, together with whether the
`fetch` was performed.  The credential check precedes the request. -/
def searchKeywords (apiKey : Option String) (resp : FetchResponse) :
    Except String (List Keyword) × Bool :=
  if truthyKey apiKey then
    if resp.ok then (Except.ok (normalizePayload resp.payload), true)
    else (Except.error (providerErrorMessage resp.message resp.status), true)
  else (Except.error configErrorMessage, false)

/-- The component state relevant to a search: `keywords`, `isLoading`,
`error` (the three `useState` hooks driving the result view). -/
structure PanelState where
  keywords : List Keyword
  isLoading : Bool
  error : Option String
deriving DecidableEq

/-- The synchronous prefix of `handleSearch` on a non-empty query
(lines 111-113): `setIsLoading(true); setError(null); setKeywords([])`. -/
def startSearch (_s : PanelState) : PanelState :=
  { keywords := [], isLoading := true, error := none }

/-- The informational message surfaced on an empty result list (line 120). -/
def noResultsMessage : String := "No keywords found for this query"

/-- The error set by `handleSearch` on an empty-trimmed query (line 108). -/
def emptyQueryMessage : String := "Please enter a search term"

/-- The resumption of `handleSearch` once its response arrives
(lines 115-128): on success `setKeywords(results)` and, if empty,
`setError(noResultsMessage)`; on failure `setError(message)`; in both
cases finally `setIsLoading(false)`.  Applied to whatever state the
component is in at arrival time. -/
def completeSearch (s : PanelState) (res : Except String (List Keyword)) : PanelState :=
  match res with
  | Except.ok results =>
      let s1 := { s with keywords := results }
      let s2 := if results.isEmpty then { s1 with error := some noResultsMessage } else s1
      { s2 with isLoading := false }
  | Except.error msg => { s with error := some msg, isLoading := false }

/-- `handleSearch` (lines 104-129) run to completion with no interleaved
invocation, for the already-resolved query string: returns the new state
and whether a network request was performed. -/
def handleSearch (s : PanelState) (q : String) (apiKey : Option String)
    (resp : FetchResponse) : PanelState × Bool :=
  if jsTrim q = "" then ({ s with error := some emptyQueryMessage }, false)
  else
    let r := searchKeywords apiKey resp
    (completeSearch (startSearch s) r.1, r.2)

/-- The auto-search effect on a committed (debounced) query (lines 51-58):
a truthy trimmed query runs `handleSearch`, otherwise
`setKeywords([]); setError(null)` with no request. -/
def commitQuery (s : PanelState) (q : String) (apiKey : Option String)
    (resp : FetchResponse) : PanelState × Bool :=
  if jsTrim q = "" then ({ s with keywords := [], error := none }, false)
  else handleSearch s q apiKey resp

/-- `toggleBookmark` (lines 137-143): remove the term when present
(`prev.filter(t => t !== term)`), append it when absent. -/
def toggleBookmark (prev : List String) (term : String) : List String :=
  if term ∈ prev then prev.filter (fun t => t != term) else prev ++ [term]

/-- The debounce effect (lines 42-48), driven by a timed input trace.
The pending timer carries its fire time and captured value; a new input
cancels the pending timer (`clearTimeout`) and schedules the value 300
units later; a timer that reaches its fire time before the next input
emits its value as the committed query. -/
def debounceGo : Option (Nat × String) → List (Nat × String) → List String
  | none, [] => []
  | some (_, v), [] => [v]
  | none, (t, v) :: rest => debounceGo (some (t + 300, v)) rest
  | some (ft, pv), (t, v) :: rest =>
      if ft ≤ t then pv :: debounceGo (some (t + 300, v)) rest
      else debounceGo (some (t + 300, v)) rest

/-- Run the debouncer on a whole trace of `(time, value)` inputs,
letting the final pending timer fire at the end. -/
def debounceRun (inputs : List (Nat × String)) : List String :=
  debounceGo none inputs

/-- The last value of a timed input trace (default `d` for the empty trace). -/
def lastVal (d : String) : List (Nat × String) → String
  | [] => d
  | (_, v) :: rest => lastVal v rest

/-- Spec-side reading of the volume derivation (claim C2/C3): the first
*present* exact numeric field, in priority order, with no truthiness test. -/
def firstNumeric (k : RawItem) : Option Int :=
  match k.searchVolume with
  | some n => some n
  | none =>
      match k.volume with
      | some n => some n
      | none => k.monthly_searches

/-- Spec-side per-item normalization, read off the claim's words: term is
the keyword field; volume is the exact numeric field if present, else the
volume label if present, else `"Unknown"`; difficulty is the difficulty
label if present, else `"Unknown"`. -/
def specNormalizeItem (k : RawItem) : Keyword :=
  { term := k.keyword
    volume :=
      match firstNumeric k with
      | some n => VolumeVal.num n
      | none =>
          match k.volumeLabel with
          | some l => VolumeVal.str l
          | none => VolumeVal.str "Unknown"
    difficulty := k.difficultyLabel.getD "Unknown" }

/-- Spec-side normalization of a list of raw items. -/
def specNormalizeItems (l : List RawItem) : List Keyword :=
  l.map specNormalizeItem

/-- Spec-side normalization of a payload: general suggestions first,
then question suggestions, each in provider order. -/
def specNormalizePayload (p : Payload) : List Keyword :=
  specNormalizeItems (allIdeasResults p) ++ specNormalizeItems (questionIdeasResults p)

/-- A raw item on which JS truthiness and option-presence agree: no
numeric field is `0` and no label field is the empty string. -/
def wfItem (k : RawItem) : Prop :=
  k.searchVolume ≠ some 0 ∧ k.volume ≠ some 0 ∧ k.monthly_searches ≠ some 0 ∧
    k.volumeLabel ≠ some "" ∧ k.difficultyLabel ≠ some ""

instance (k : RawItem) : Decidable (wfItem k) := by
  unfold wfItem
  infer_instance

/-- A concrete keyword standing for query A's result. -/
def kwAlpha : Keyword := { term := some "alpha", volume := VolumeVal.num 10, difficulty := "EASY" }

/-- A concrete keyword standing for query B's result. -/
def kwBeta : Keyword := { term := some "beta", volume := VolumeVal.num 20, difficulty := "HARD" }

/-- The component's mount-time search state. -/
def initialState : PanelState := { keywords := [], isLoading := false, error := none }

/-- A concrete successful (but empty) provider response. -/
def demoResponse : FetchResponse :=
  { ok := true, status := 200, message := none, payload := { data := none } }

/-- A raw item whose highest-priority numeric field is `0` and whose label
fields are empty strings: JS truthiness then disagrees with presence. -/
def zeroVolItem : RawItem :=
  { keyword := some "keyword tool", searchVolume := some 0, volume := none,
    monthly_searches := none, volumeLabel := some "", difficultyLabel := some "" }

/-- A payload holding `zeroVolItem` as its only general suggestion. -/
def zeroVolPayload : Payload :=
  { data := some { allIdeas := some { results := some [zeroVolItem] },
                   questionIdeas := none } }

/-- The general-suggestion item of the spec's normalization test. -/
def itemX : RawItem :=
  { keyword := some "x", searchVolume := some 120, volume := none,
    monthly_searches := none, volumeLabel := none, difficultyLabel := some "EASY" }

/-- The question-suggestion item of the spec's normalization test. -/
def itemY : RawItem :=
  { keyword := some "y", searchVolume := none, volume := none,
    monthly_searches := none, volumeLabel := some "MoreThanTenThousand",
    difficultyLabel := some "Unknown" }

/-- The spec's normalization test payload. -/
def testPayload : Payload :=
  { data := some { allIdeas := some { results := some [itemX] },
                   questionIdeas := some { results := some [itemY] } } }

/-- A raw item whose highest-priority numeric field is `0` alongside a
recognized volume label. -/
def zeroSvItem : RawItem :=
  { keyword := some "vpn", searchVolume := some 0, volume := none,
    monthly_searches := none, volumeLabel := some "MoreThanOneThousand",
    difficultyLabel := some "HARD" }

/-- A plain raw item for the C10 witness payload. -/
def demoItem : RawItem :=
  { keyword := some "seo", searchVolume := some 5, volume := none,
    monthly_searches := none, volumeLabel := none, difficultyLabel := none }

/-- C1: the code violates last-request-wins.  Interleaving: query A's
`handleSearch` runs to its suspension point, then query B's does, B's
response `ok [kwBeta]` arrives and is applied, then A's late response
`ok [kwAlpha]` arrives.  `handleSearch` compares no sequence tag before
applying a response, so A's resumption overwrites B's state: the final
displayed keyword list is A's, not B's. -/
theorem C1_staleResponseOverwrites :
    (completeSearch
        (completeSearch (startSearch (startSearch initialState)) (Except.ok [kwBeta]))
        (Except.ok [kwAlpha])) =
      { keywords := [kwAlpha], isLoading := false, error := none } ∧
    kwAlpha ≠ kwBeta := by decide

/-- C4: with no configured credential, a search for any non-empty-trimmed
query reports the configuration error and performs no network request. -/
theorem C4_missingCredentialFailsFast (s : PanelState) (q : String) (resp : FetchResponse)
    (hq : jsTrim q ≠ "") :
    handleSearch s q none resp =
      ({ keywords := [], isLoading := false, error := some configErrorMessage }, false) := by
  unfold handleSearch searchKeywords truthyKey completeSearch startSearch
  simp [hq]

/-- Witness for C4 at a concrete state, query and response. -/
theorem C4_missingCredentialFailsFast_witness :
    handleSearch initialState "seo" none demoResponse =
      ({ keywords := [], isLoading := false, error := some configErrorMessage }, false) :=
  C4_missingCredentialFailsFast initialState "seo" demoResponse (by decide)

/-- C5 counterexample: an explicit search invocation with a whitespace-only
query does not transition to Idle: it sets the error
"Please enter a search term" and leaves the prior result list in place. -/
theorem C5_counterexample :
    handleSearch { keywords := [kwAlpha], isLoading := false, error := none } "   "
        (some "key") demoResponse =
      ({ keywords := [kwAlpha], isLoading := false, error := some emptyQueryMessage }, false) ∧
    some emptyQueryMessage ≠ (none : Option String) ∧ [kwAlpha] ≠ ([] : List Keyword) := by
  decide

/-- C5 amended: committing an empty-trimmed query through the debounced
auto-search path clears results and error (Idle) with no request, while an
explicit `handleSearch` invocation with an empty-trimmed query issues no
request but sets the error "Please enter a search term" and leaves prior
results unchanged. -/
theorem C5_emptyQueryPaths (s : PanelState) (q : String) (apiKey : Option String)
    (resp : FetchResponse) (hq : jsTrim q = "") :
    commitQuery s q apiKey resp = ({ s with keywords := [], error := none }, false) ∧
    handleSearch s q apiKey resp = ({ s with error := some emptyQueryMessage }, false) := by
  unfold commitQuery handleSearch
  simp [hq]

/-- Witness for the amended C5 at a concrete state and query. -/
theorem C5_emptyQueryPaths_witness :
    commitQuery { keywords := [kwAlpha], isLoading := false, error := some "boom" } " "
        none demoResponse = ({ keywords := [], isLoading := false, error := none }, false) :=
  (C5_emptyQueryPaths { keywords := [kwAlpha], isLoading := false, error := some "boom" }
    " " none demoResponse (by decide)).1

/-- C8: toggling removes a present term and appends an absent one, leaves
every other term's membership unchanged, and toggling the same term twice
restores the original membership, for all terms. -/
theorem C8_toggleBookmarkInvolutive (l : List String) (t : String) :
    (t ∈ l → t ∉ toggleBookmark l t) ∧
    (t ∉ l → toggleBookmark l t = l ++ [t]) ∧
    (∀ x, x ≠ t → (x ∈ toggleBookmark l t ↔ x ∈ l)) ∧
    (∀ x, x ∈ toggleBookmark (toggleBookmark l t) t ↔ x ∈ l) := by
  by_cases h : t ∈ l
  · have e1 : toggleBookmark l t = l.filter (fun a => a != t) := by
      simp [toggleBookmark, h]
    have htf : t ∉ l.filter (fun a => a != t) := by simp [List.mem_filter]
    have e2 : toggleBookmark (l.filter (fun a => a != t)) t =
        l.filter (fun a => a != t) ++ [t] := by
      simp [toggleBookmark, htf]
    refine ⟨fun _ => ?_, fun h2 => absurd h h2, fun x hx => ?_, fun x => ?_⟩
    · rw [e1]; exact htf
    · rw [e1]
      simp [List.mem_filter, bne_iff_ne, hx]
    · rw [e1, e2]
      simp only [List.mem_append, List.mem_filter, List.mem_singleton, bne_iff_ne, ne_eq]
      constructor
      · rintro (⟨hxl, _⟩ | rfl)
        · exact hxl
        · exact h
      · intro hxl
        by_cases hxt : x = t
        · exact Or.inr hxt
        · exact Or.inl ⟨hxl, hxt⟩
  · have e1 : toggleBookmark l t = l ++ [t] := by simp [toggleBookmark, h]
    have ht2 : t ∈ l ++ [t] := by simp
    have e2 : toggleBookmark (l ++ [t]) t = (l ++ [t]).filter (fun a => a != t) := by
      simp [toggleBookmark, ht2]
    refine ⟨fun h2 => absurd h2 h, fun _ => e1, fun x hx => ?_, fun x => ?_⟩
    · rw [e1]
      simp [List.mem_append, hx]
    · rw [e1, e2]
      simp only [List.mem_filter, List.mem_append, List.mem_singleton, bne_iff_ne, ne_eq]
      constructor
      · rintro ⟨hxl | rfl, hxt⟩
        · exact hxl
        · exact absurd rfl hxt
      · intro hxl
        exact ⟨Or.inl hxl, fun hh => h (hh ▸ hxl)⟩

/-- Witness for C8 at concrete lists and terms. -/
theorem C8_toggleBookmarkInvolutive_witness :
    "a" ∉ toggleBookmark ["a", "b"] "a" ∧
    toggleBookmark ["b"] "a" = ["b"] ++ ["a"] ∧
    ("b" ∈ toggleBookmark (toggleBookmark ["a", "b"] "a") "a" ↔ "b" ∈ ["a", "b"]) :=
  ⟨(C8_toggleBookmarkInvolutive ["a", "b"] "a").1 (by decide),
   (C8_toggleBookmarkInvolutive ["b"] "a").2.1 (by decide),
   (C8_toggleBookmarkInvolutive ["a", "b"] "a").2.2.2 "b"⟩

/-- On a well-formed item the code's transform agrees with the spec-side
reading: JS truthiness never misfires when no field is `0` or `""`. -/
theorem normalizeItem_eq_specNormalizeItem (k : RawItem) (hk : wfItem k) :
    normalizeItem k = specNormalizeItem k := by
  obtain ⟨h1, h2, h3, h4, h5⟩ := hk
  obtain ⟨kw, sv, vol, ms, vl, dl⟩ := k
  have hdl : jsOrStr dl "Unknown" = dl.getD "Unknown" := by
    cases dl with
    | none => rfl
    | some s =>
        have hs : s ≠ "" := by simpa using h5
        simp [jsOrStr, hs]
  cases sv with
  | some n =>
      have hn : n ≠ 0 := by simpa using h1
      simp [normalizeItem, specNormalizeItem, firstNumeric, jsOrNum, truthyNum,
        bne_iff_ne, hn, hdl]
  | none =>
      cases vol with
      | some n =>
          have hn : n ≠ 0 := by simpa using h2
          simp [normalizeItem, specNormalizeItem, firstNumeric, jsOrNum, truthyNum,
            bne_iff_ne, hn, hdl]
      | none =>
          cases ms with
          | some n =>
              have hn : n ≠ 0 := by simpa using h3
              simp [normalizeItem, specNormalizeItem, firstNumeric, jsOrNum, truthyNum,
                bne_iff_ne, hn, hdl]
          | none =>
              cases vl with
              | none =>
                  cases dl with
                  | none =>
                      simp [normalizeItem, specNormalizeItem, firstNumeric, jsOrNum,
                        truthyNum, jsOrStr]
                  | some s =>
                      have hs : s ≠ "" := by simpa using h5
                      simp [normalizeItem, specNormalizeItem, firstNumeric, jsOrNum,
                        truthyNum, jsOrStr, hs]
              | some s =>
                  have hs : s ≠ "" := by simpa using h4
                  cases dl with
                  | none =>
                      simp [normalizeItem, specNormalizeItem, firstNumeric, jsOrNum,
                        truthyNum, jsOrStr, hs]
                  | some s2 =>
                      have hs2 : s2 ≠ "" := by simpa using h5
                      simp [normalizeItem, specNormalizeItem, firstNumeric, jsOrNum,
                        truthyNum, jsOrStr, hs, hs2]

/-- C2 counterexample: on an item with `searchVolume = 0` and empty-string
labels, the code does not map the present numeric field or the present
labels: it returns `"Unknown"` for both, where the claim's field mapping
yields the number `0` and the verbatim label `""`. -/
theorem C2_counterexample :
    normalizePayload zeroVolPayload ≠ specNormalizePayload zeroVolPayload ∧
    normalizePayload zeroVolPayload =
      [{ term := some "keyword tool", volume := VolumeVal.str "Unknown",
         difficulty := "Unknown" }] ∧
    specNormalizePayload zeroVolPayload =
      [{ term := some "keyword tool", volume := VolumeVal.num 0, difficulty := "" }] := by
  decide

/-- C2 amended: for payloads whose raw items carry no zero numeric volume
field and no empty-string label, the normalizer output equals the spec-side
normalization of the general suggestions followed by that of the question
suggestions, preserving provider order with no sorting, deduplication or
ranking. -/
theorem C2_normalizationOrderAndFields (p : Payload)
    (hwf : ∀ k ∈ allIdeasResults p ++ questionIdeasResults p, wfItem k) :
    normalizePayload p = specNormalizePayload p := by
  unfold normalizePayload specNormalizePayload specNormalizeItems
  rw [List.map_append]
  have hA : (allIdeasResults p).map normalizeItem =
      (allIdeasResults p).map specNormalizeItem :=
    List.map_congr_left fun k hk =>
      normalizeItem_eq_specNormalizeItem k (hwf k (List.mem_append_left _ hk))
  have hQ : (questionIdeasResults p).map normalizeItem =
      (questionIdeasResults p).map specNormalizeItem :=
    List.map_congr_left fun k hk =>
      normalizeItem_eq_specNormalizeItem k (hwf k (List.mem_append_right _ hk))
  rw [hA, hQ]

/-- Witness for the amended C2 at the spec's own test payload. -/
theorem C2_normalizationOrderAndFields_witness :
    normalizePayload testPayload = specNormalizePayload testPayload :=
  C2_normalizationOrderAndFields testPayload (by decide)

/-- C3 counterexample: on an item whose highest-priority exact numeric field
is the number `0`, the code falls back to the coarse volume label instead of
assigning the exact value `0`. -/
theorem C3_counterexample :
    firstNumeric zeroSvItem = some 0 ∧
    (normalizeItem zeroSvItem).volume = VolumeVal.str "MoreThanOneThousand" ∧
    VolumeVal.str "MoreThanOneThousand" ≠ VolumeVal.num 0 := by decide

/-- C3 amended: a `0` in `searchVolume` or `volume` is treated as missing
(the item normalizes exactly as if the field were absent, falling through to
the later fields and then to the label or `"Unknown"`); a `0` survives as
the exact value `0` only when it arrives through `monthly_searches`, the
final field of the fallback chain. -/
theorem C3_zeroVolumeFallsThrough (k : RawItem) :
    (k.searchVolume = some 0 →
      normalizeItem k = normalizeItem { k with searchVolume := none }) ∧
    (k.volume = some 0 →
      normalizeItem k = normalizeItem { k with volume := none }) ∧
    (k.searchVolume = none → k.volume = none → k.monthly_searches = some 0 →
      (normalizeItem k).volume = VolumeVal.num 0) := by
  obtain ⟨kw, sv, vol, ms, vl, dl⟩ := k
  refine ⟨fun h => ?_, fun h => ?_, fun h1 h2 h3 => ?_⟩
  · dsimp only at h
    subst h
    simp [normalizeItem, jsOrNum, truthyNum]
  · dsimp only at h
    subst h
    simp [normalizeItem, jsOrNum, truthyNum]
  · dsimp only at h1 h2 h3
    subst h1
    subst h2
    subst h3
    simp [normalizeItem, jsOrNum, truthyNum]

/-- Witness for the amended C3 at concrete items. -/
theorem C3_zeroVolumeFallsThrough_witness :
    normalizeItem zeroSvItem = normalizeItem { zeroSvItem with searchVolume := none } ∧
    (normalizeItem
        { keyword := some "z", searchVolume := none, volume := none,
          monthly_searches := some 0, volumeLabel := some "MoreThanOneHundred",
          difficultyLabel := none }).volume = VolumeVal.num 0 :=
  ⟨(C3_zeroVolumeFallsThrough zeroSvItem).1 (by decide),
   (C3_zeroVolumeFallsThrough
      { keyword := some "z", searchVolume := none, volume := none,
        monthly_searches := some 0, volumeLabel := some "MoreThanOneHundred",
        difficultyLabel := none }).2.2 rfl rfl rfl⟩

/-- C6 counterexample: a non-success response whose body carries the
`message` field `""` is not surfaced verbatim, and the generic message is
"API request failed with status 500", not "request failed with status 500". -/
theorem C6_counterexample :
    providerErrorMessage (some "") 500 = "API request failed with status 500" ∧
    providerErrorMessage (some "") 500 ≠ "" ∧
    providerErrorMessage none 500 ≠ "request failed with status 500" := by decide

/-- C6 amended: on a non-success response the surfaced error is the body's
`message` field verbatim when present and non-empty, and otherwise exactly
"API request failed with status {code}" for the actual status code. -/
theorem C6_providerErrorSurfaced (apiKey : Option String) (resp : FetchResponse)
    (hk : truthyKey apiKey = true) (hok : resp.ok = false) :
    (searchKeywords apiKey resp).1 =
      Except.error (providerErrorMessage resp.message resp.status) ∧
    (∀ m, resp.message = some m → m ≠ "" →
      providerErrorMessage resp.message resp.status = m) ∧
    ((resp.message = none ∨ resp.message = some "") →
      providerErrorMessage resp.message resp.status =
        "API request failed with status " ++ toString resp.status) := by
  refine ⟨by simp [searchKeywords, hk, hok], fun m hm hme => ?_, ?_⟩
  · simp [providerErrorMessage, jsOrStr, hm, hme]
  · rintro (hm | hm) <;> simp [providerErrorMessage, jsOrStr, hm]

/-- Witness for the amended C6: the spec's own example, a 500 response with
body message "quota exceeded". -/
theorem C6_providerErrorSurfaced_witness :
    (searchKeywords (some "k")
        { ok := false, status := 500, message := some "quota exceeded",
          payload := { data := none } }).1 = Except.error "quota exceeded" :=
  have h := C6_providerErrorSurfaced (some "k")
    { ok := false, status := 500, message := some "quota exceeded",
      payload := { data := none } } (by decide) rfl
  h.1.trans (congrArg Except.error (h.2.1 "quota exceeded" rfl (by decide)))

/-- C7 counterexample: the empty label is not one of the five recognized
volume tokens, yet the volume formatter does not return it unchanged, and
the difficulty formatter does not return its title-case (which is `""`). -/
theorem C7_counterexample :
    volumeMap "" = none ∧
    formatVolumeLabel "" = "Unknown" ∧ "Unknown" ≠ "" ∧
    titleCaseJS "" = "" ∧ formatDifficultyLabel "" = "Unknown" := by decide

/-- C7 amended: the volume formatter maps the five known tokens to their
human ranges, sends the empty label to "Unknown", and returns every other
token unchanged; the difficulty formatter sends the empty label to
"Unknown" and title-cases every other input ("Unknown" passing through
unchanged in both). -/
theorem C7_labelFormatters (l : String) :
    formatVolumeLabel "MoreThanHundredThousand" = "100,000+" ∧
    formatVolumeLabel "MoreThanTenThousand" = "10,000+" ∧
    formatVolumeLabel "MoreThanOneThousand" = "1,000+" ∧
    formatVolumeLabel "MoreThanOneHundred" = "100+" ∧
    formatVolumeLabel "LessThanOneHundred" = "<100" ∧
    formatVolumeLabel "" = "Unknown" ∧
    formatDifficultyLabel "" = "Unknown" ∧
    (l ≠ "" → volumeMap l = none → formatVolumeLabel l = l) ∧
    (l ≠ "" → formatDifficultyLabel l = titleCaseJS l) := by
  refine ⟨by decide, by decide, by decide, by decide, by decide, by decide, by decide,
    fun h1 h2 => ?_, fun h1 => ?_⟩
  · by_cases hu : l = "Unknown"
    · subst hu
      decide
    · simp [formatVolumeLabel, h1, hu, h2]
  · by_cases hu : l = "Unknown"
    · subst hu
      decide
    · simp [formatDifficultyLabel, h1, hu]

/-- Witness for the amended C7 at concrete labels. -/
theorem C7_labelFormatters_witness :
    formatVolumeLabel "SomeNewBucket" = "SomeNewBucket" ∧
    formatDifficultyLabel "EASY" = titleCaseJS "EASY" :=
  ⟨(C7_labelFormatters "SomeNewBucket").2.2.2.2.2.2.2.1 (by decide) (by decide),
   (C7_labelFormatters "EASY").2.2.2.2.2.2.2.2 (by decide)⟩

/-- While inputs keep arriving within the quiet interval, the pending timer
never fires: the run emits exactly the last value of the trace. -/
theorem debounceGo_chain (rest : List (Nat × String)) :
    ∀ t v, List.Chain' (fun a b => b.1 < a.1 + 300) ((t, v) :: rest) →
      debounceGo (some (t + 300, v)) rest = [lastVal v rest] := by
  induction rest with
  | nil => intro t v _; rfl
  | cons hd tl ih =>
      intro t v hch
      obtain ⟨t2, v2⟩ := hd
      rw [List.chain'_cons] at hch
      obtain ⟨hlt, hch2⟩ := hch
      have hnle : ¬ (t + 300 ≤ t2) := by omega
      simp only [debounceGo, if_neg hnle, lastVal]
      exact ih t2 v2 hch2

/-- C9: for a non-empty input trace whose successive values each arrive
strictly sooner than the 300-unit quiet interval after the previous one,
the debouncer emits exactly one committed query, the final value; no
intermediate value is emitted. -/
theorem C9_debounceCoalesces (t : Nat) (v : String) (rest : List (Nat × String))
    (hfast : List.Chain' (fun a b => b.1 < a.1 + 300) ((t, v) :: rest)) :
    debounceRun ((t, v) :: rest) = [lastVal v rest] := by
  show debounceGo none ((t, v) :: rest) = [lastVal v rest]
  rw [debounceGo]
  exact debounceGo_chain rest t v hfast

/-- Witness for C9: three keystrokes 100 and 150 units apart commit only
the final text. -/
theorem C9_debounceCoalesces_witness :
    debounceRun [(0, "s"), (100, "se"), (250, "seo")] = ["seo"] :=
  C9_debounceCoalesces 0 "s" [(100, "se"), (250, "seo")] (by norm_num [List.chain'_cons])

/-- C10: a payload missing the outer `data` object normalizes to the empty
list; a missing suggestion collection contributes nothing, the present one
being normalized alone; a collection without its `results` array counts as
empty. -/
theorem C10_missingCollectionsSafe (d : PayloadData) (c : IdeaCollection) :
    normalizePayload { data := none } = [] ∧
    (d.allIdeas = none →
      normalizePayload { data := some d } =
        (collResults d.questionIdeas).map normalizeItem) ∧
    (d.questionIdeas = none →
      normalizePayload { data := some d } =
        (collResults d.allIdeas).map normalizeItem) ∧
    (c.results = none → collResults (some c) = []) := by
  refine ⟨rfl, fun h => ?_, fun h => ?_, fun h => ?_⟩
  · simp [normalizePayload, allIdeasResults, questionIdeasResults, h, collResults]
  · simp [normalizePayload, allIdeasResults, questionIdeasResults, h, collResults]
  · simp [collResults, h]

/-- Witness for C10: a payload with only question suggestions normalizes to
just those, and a results-less collection is empty. -/
theorem C10_missingCollectionsSafe_witness :
    normalizePayload
        { data := some { allIdeas := none,
                         questionIdeas := some { results := some [demoItem] } } } =
      (collResults (some { results := some [demoItem] })).map normalizeItem ∧
    collResults (some { results := none }) = [] :=
  ⟨(C10_missingCollectionsSafe
      { allIdeas := none, questionIdeas := some { results := some [demoItem] } }
      { results := none }).2.1 rfl,
   (C10_missingCollectionsSafe
      { allIdeas := none, questionIdeas := some { results := some [demoItem] } }
      { results := none }).2.2.2 rfl⟩

end KeywordPanel
